import Mathlib

/-!
Shallow embedding of smartproxy's redis command/reply layer
(src/redis/command.go) and verification of its specification.

Go byte buffers are modelled as Lean strings, Go errors as values with an
identity and a message (Go compares errors by interface identity with ==,
and by message text via Error()), Go nil-able results as Option, and the
universal decoded value produced by the wire decoder as a closed inductive
type of wire shapes.
-/

namespace Redis

/-- A Go error interface value: an identity plus the message that its method
Error() returns. Two distinct errors may carry the same message, matching Go,
where == on errors compares identity while comparing Error() compares text. -/
structure GoError where
  id : Nat
  msg : String
deriving DecidableEq

/-- The Error() method of a Go error: returns its message. -/
def GoError.Error (e : GoError) : String := e.msg

/-- Modelled from the spec: the Nil sentinel error, meaning no such reply, is
declared outside src/. Section 9 of the spec records that the source compares
err.Error() against the literal text of a redis nil, so that is its message. -/
def Nil : GoError := ⟨0, "redis: nil"⟩

/-- Modelled from the spec: TypeAssertedErr, meaning the value had an
unexpected shape, is declared outside src/; only its message text is used by
FormatSlice, via TypeAssertedErr.Error(). -/
def TypeAssertedErr : GoError := ⟨1, "value had unexpected shape"⟩

/-- The error built by fmt.Errorf in the default case of BoolCmd.parseReply.
The format string in the source has a verb with no operand, which Go renders
with a MISSING marker; no claim depends on the exact text. -/
def boolShapeErr : GoError := ⟨2, "got %!T(MISSING), wanted int64 or string"⟩

/-- Modelled from the spec: a Go float64 value. The float formatter of this
repository is outside src/, so floats are carried by their decimal rendering. -/
structure GoFloat where
  repr : String
deriving DecidableEq

/-- Modelled from the spec: formatFloat, outside src/, renders a float64 in
decimal; with floats carried by their rendering it is the projection. -/
def formatFloat (f : GoFloat) : String := f.repr

/-- Modelled from the spec: formatInt, outside src/, renders an int64 in
decimal. -/
def formatInt (i : Int) : String := toString i

namespace util

/-- Modelled from the spec: util.Itoa, outside src/, renders an int in
decimal; in src/ it is only applied to nonnegative buffer lengths. -/
def Itoa (n : Nat) : String := toString n

end util

/-- The universal decoded value produced by the wire decoder with no element
parser: a status or bulk payload decodes to a Go string, an integer line to an
int64, an array to a nested sequence. -/
inductive RVal where
  | vint (i : Int)
  | vstr (s : String)
  | varr (elems : List RVal)

/-- The element universe of a decoded heterogeneous slice, exactly the cases
type-switched by FormatSlice: Go int, int64, string, float64, nil, or any
other dynamic type, identified by its type name. -/
inductive SVal where
  | vint (i : Int)
  | vint64 (i : Int)
  | vstr (s : String)
  | vfloat (f : GoFloat)
  | vnil
  | vother (typeName : String)
deriving DecidableEq

/-- The shared embedded base of every command variant: argument vector,
stored error, cluster key position, and the two timeout overrides. -/
structure baseCmd where
  _args : List String
  err : Option GoError
  _clusterKeyPos : Int
  _writeTimeout : Option Int
  _readTimeout : Option Int
deriving DecidableEq

/-- baseCmd.Err from the source: returns the stored error if non-nil, else nil. -/
def baseCmd.Err (cmd : baseCmd) : Option GoError :=
  match cmd.err with
  | some e => some e
  | none => none

/-- baseCmd.args from the source: the argument vector. -/
def baseCmd.args (cmd : baseCmd) : List String := cmd._args

/-- baseCmd.clusterKey from the source: the argument at the configured key
position when that position is positive and within the argument vector,
otherwise the empty string. -/
def baseCmd.clusterKey (cmd : baseCmd) : String :=
  if h : 0 < cmd._clusterKeyPos ∧ cmd._clusterKeyPos < (cmd._args.length : Int) then
    cmd._args.get ⟨cmd._clusterKeyPos.toNat, by omega⟩
  else ""

/-- baseCmd.setErr from the source: store the given error. -/
def baseCmd.setErr (e : Option GoError) (cmd : baseCmd) : baseCmd :=
  { cmd with err := e }

/-- Helper building a baseCmd with no timeout overrides. -/
def mkBase (args : List String) (e : Option GoError) (pos : Int) : baseCmd :=
  ⟨args, e, pos, none, none⟩

/-- Outcome of a command's parseReply step: either the run panicked (a Go
unchecked type assertion failed), or it returned normally with an updated
command state and the returned error value. -/
inductive ParseResult (σ : Type) where
  | panicked
  | ret (cmd : σ) (e : Option GoError)

/-- The RESP frame emitted by the Reply() methods that hold a stored error:
the nil bulk frame when the message equals the redis nil text, otherwise an
error frame carrying the message. -/
def errorFrame (e : GoError) : String :=
  if e.Error = "redis: nil" then "$-1\r\n" else "-" ++ e.Error ++ "\r\n"

/-- The generic Cmd variant: the decoded value is kept as-is (Go interface,
nil when nothing was decoded). -/
structure Cmd where
  base : baseCmd
  val : Option RVal

/-- NewCmd from the source: fresh arguments, zero base (no key position). -/
def NewCmd (args : List String) : Cmd :=
  ⟨mkBase args none 0, none⟩

/-- Cmd.reset from the source: clear value and error. -/
def Cmd.reset (cmd : Cmd) : Cmd :=
  { cmd with val := none, base.err := none }

/-- Cmd.Reply from the source: returns nil unconditionally. -/
def Cmd.Reply (_ : Cmd) : Option String := none

/-- The Slice variant: a heterogeneous sequence of scalars. -/
structure SliceCmd where
  base : baseCmd
  val : List SVal

/-- NewSliceCmd from the source: key position 1. -/
def NewSliceCmd (args : List String) : SliceCmd :=
  ⟨mkBase args none 1, []⟩

/-- SliceCmd.reset from the source. -/
def SliceCmd.reset (cmd : SliceCmd) : SliceCmd :=
  { cmd with val := [], base.err := none }

/-- The loop body of FormatSlice from the source: each element appends its
bulk or nil frame to the buffer; the first element of an unsupported dynamic
type makes the whole call return an error frame carrying TypeAssertedErr. -/
def formatSliceLoop : List SVal → String → String
  | [], b => b
  | v :: rest, b =>
    match v with
    | .vint i =>
      let d := formatInt i
      formatSliceLoop rest (b ++ "$" ++ util.Itoa d.utf8ByteSize ++ "\r\n" ++ d ++ "\r\n")
    | .vint64 i =>
      let d := formatInt i
      formatSliceLoop rest (b ++ "$" ++ util.Itoa d.utf8ByteSize ++ "\r\n" ++ d ++ "\r\n")
    | .vstr s =>
      formatSliceLoop rest (b ++ "$" ++ util.Itoa s.utf8ByteSize ++ "\r\n" ++ s ++ "\r\n")
    | .vfloat f =>
      let d := formatFloat f
      formatSliceLoop rest (b ++ "$" ++ util.Itoa d.utf8ByteSize ++ "\r\n" ++ d ++ "\r\n")
    | .vnil => formatSliceLoop rest (b ++ "$-1\r\n")
    | .vother _ => "-" ++ TypeAssertedErr.Error ++ "\r\n"

/-- FormatSlice from the source: array header with the element count, then
one frame per element via the type switch. -/
def FormatSlice (val : List SVal) : String :=
  formatSliceLoop val ("*" ++ util.Itoa val.length ++ "\r\n")

/-- SliceCmd.Reply from the source: nil bulk frame for a stored error whose
message is the redis nil text, error frame for any other stored error, else
FormatSlice of the value. -/
def SliceCmd.Reply (cmd : SliceCmd) : Option String :=
  match cmd.base.Err with
  | some e =>
    if e.Error = "redis: nil" then some "$-1\r\n"
    else some ("-" ++ e.Error ++ "\r\n")
  | none => some (FormatSlice cmd.val)

/-- The Status variant: a simple status string. -/
structure StatusCmd where
  base : baseCmd
  val : String

/-- NewStatusCmd from the source: key position 1. -/
def NewStatusCmd (args : List String) : StatusCmd :=
  ⟨mkBase args none 1, ""⟩

/-- newKeylessStatusCmd from the source: no key position. -/
def newKeylessStatusCmd (args : List String) : StatusCmd :=
  ⟨mkBase args none 0, ""⟩

/-- StatusCmd.reset from the source. -/
def StatusCmd.reset (cmd : StatusCmd) : StatusCmd :=
  { cmd with val := "", base.err := none }

/-- FormatStatus from the source: plus sign, payload, CRLF. -/
def FormatStatus (val : String) : String :=
  "+" ++ val ++ "\r\n"

/-- StatusCmd.Reply from the source. -/
def StatusCmd.Reply (cmd : StatusCmd) : Option String :=
  match cmd.base.Err with
  | some e =>
    if e.Error = "redis: nil" then some "$-1\r\n"
    else some ("-" ++ e.Error ++ "\r\n")
  | none => some (FormatStatus cmd.val)

/-- The Int variant: a signed 64-bit integer. -/
structure IntCmd where
  base : baseCmd
  val : Int

/-- NewIntCmd from the source: key position 1. -/
def NewIntCmd (args : List String) : IntCmd :=
  ⟨mkBase args none 1, 0⟩

/-- IntCmd.reset from the source. -/
def IntCmd.reset (cmd : IntCmd) : IntCmd :=
  { cmd with val := 0, base.err := none }

/-- IntCmd.parseReply from the source: a decoder error is stored and
returned; otherwise the decoded value is narrowed by the unchecked Go type
assertion v.(int64), which panics on any non-integer shape. -/
def IntCmd.parseReply (input : Except GoError RVal) (cmd : IntCmd) : ParseResult IntCmd :=
  match input with
  | .error e => .ret { cmd with base.err := some e } (some e)
  | .ok v =>
    match v with
    | .vint i => .ret { cmd with val := i } none
    | _ => .panicked

/-- FormatInt from the source: colon, decimal digits, CRLF. -/
def FormatInt (val : Int) : String :=
  ":" ++ formatInt val ++ "\r\n"

/-- IntCmd.Reply from the source. -/
def IntCmd.Reply (cmd : IntCmd) : Option String :=
  match cmd.base.Err with
  | some e =>
    if e.Error = "redis: nil" then some "$-1\r\n"
    else some ("-" ++ e.Error ++ "\r\n")
  | none => some (FormatInt cmd.val)

/-- The Duration variant: a duration in nanoseconds plus the configured
precision unit. -/
structure DurationCmd where
  base : baseCmd
  val : Int
  precision : Int

/-- NewDurationCmd from the source: key position 1, given precision. -/
def NewDurationCmd (precision : Int) (args : List String) : DurationCmd :=
  ⟨mkBase args none 1, 0, precision⟩

/-- DurationCmd.reset from the source: clears value and error, keeps the
precision. -/
def DurationCmd.reset (cmd : DurationCmd) : DurationCmd :=
  { cmd with val := 0, base.err := none }

/-- Modelled from the spec: formatMs, outside src/, renders the duration as
an integer count of milliseconds (Go division truncates toward zero). -/
def formatMs (d : Int) : String := formatInt (Int.tdiv d 1000000)

/-- Modelled from the spec: formatSec, outside src/, renders the duration as
an integer count of seconds. -/
def formatSec (d : Int) : String := formatInt (Int.tdiv d 1000000000)

/-- FormatDuration from the source: colon frame with the integer re-derived
using the configured unit (milliseconds when the precision is a millisecond,
else seconds). -/
def FormatDuration (val : Int) (pre : Int) : String :=
  ":" ++ (if pre = 1000000 then formatMs val else formatSec val) ++ "\r\n"

/-- DurationCmd.Reply from the source. -/
def DurationCmd.Reply (cmd : DurationCmd) : Option String :=
  match cmd.base.Err with
  | some e =>
    if e.Error = "redis: nil" then some "$-1\r\n"
    else some ("-" ++ e.Error ++ "\r\n")
  | none => some (FormatDuration cmd.val cmd.precision)

/-- The Bool variant. -/
structure BoolCmd where
  base : baseCmd
  val : Bool

/-- NewBoolCmd from the source: key position 1. -/
def NewBoolCmd (args : List String) : BoolCmd :=
  ⟨mkBase args none 1, false⟩

/-- BoolCmd.reset from the source. -/
def BoolCmd.reset (cmd : BoolCmd) : BoolCmd :=
  { cmd with val := false, base.err := none }

/-- BoolCmd.Err: the promoted baseCmd.Err. -/
def BoolCmd.Err (cmd : BoolCmd) : Option GoError := cmd.base.Err

/-- BoolCmd.parseReply from the source: the Nil sentinel (compared by
identity) yields false with no error stored; any other decoder error is
stored and returned; a decoded int64 compares against 1, a decoded string
against the OK status, and any other shape returns (without storing) the
fmt.Errorf error from the default case of the checked type switch. -/
def BoolCmd.parseReply (input : Except GoError RVal) (cmd : BoolCmd) : ParseResult BoolCmd :=
  match input with
  | .error e =>
    if e = Nil then .ret { cmd with val := false } none
    else .ret { cmd with base.err := some e } (some e)
  | .ok v =>
    match v with
    | .vint i => .ret { cmd with val := i == 1 } none
    | .vstr s => .ret { cmd with val := s == "OK" } none
    | .varr _ => .ret cmd (some boolShapeErr)

/-- FormatBool from the source: integer frame holding 1 or 0. -/
def FormatBool (val : Bool) : String :=
  ":" ++ (if val then "1" else "0") ++ "\r\n"

/-- BoolCmd.Reply from the source. -/
def BoolCmd.Reply (cmd : BoolCmd) : Option String :=
  match cmd.base.Err with
  | some e =>
    if e.Error = "redis: nil" then some "$-1\r\n"
    else some ("-" ++ e.Error ++ "\r\n")
  | none => some (FormatBool cmd.val)

/-- The String variant: a bulk string payload. -/
structure StringCmd where
  base : baseCmd
  val : String

/-- NewStringCmd from the source: key position 1. -/
def NewStringCmd (args : List String) : StringCmd :=
  ⟨mkBase args none 1, ""⟩

/-- StringCmd.reset from the source. -/
def StringCmd.reset (cmd : StringCmd) : StringCmd :=
  { cmd with val := "", base.err := none }

/-- FormatString from the source: bulk frame whose declared length is the
byte count of the payload. -/
def FormatString (val : String) : String :=
  "$" ++ util.Itoa val.utf8ByteSize ++ "\r\n" ++ val ++ "\r\n"

/-- StringCmd.Reply from the source. -/
def StringCmd.Reply (cmd : StringCmd) : Option String :=
  match cmd.base.Err with
  | some e =>
    if e.Error = "redis: nil" then some "$-1\r\n"
    else some ("-" ++ e.Error ++ "\r\n")
  | none => some (FormatString cmd.val)

/-- The Float variant. -/
structure FloatCmd where
  base : baseCmd
  val : GoFloat

/-- NewFloatCmd from the source: key position 1. -/
def NewFloatCmd (args : List String) : FloatCmd :=
  ⟨mkBase args none 1, ⟨"0"⟩⟩

/-- FloatCmd.reset from the source: value back to zero, error cleared. -/
def FloatCmd.reset (cmd : FloatCmd) : FloatCmd :=
  { cmd with val := ⟨"0"⟩, base.err := none }

/-- FormatFloat from the source: bulk frame holding the rendered float. -/
def FormatFloat (val : GoFloat) : String :=
  "$" ++ util.Itoa (formatFloat val).utf8ByteSize ++ "\r\n" ++ formatFloat val ++ "\r\n"

/-- FloatCmd.Reply from the source. -/
def FloatCmd.Reply (cmd : FloatCmd) : Option String :=
  match cmd.base.Err with
  | some e =>
    if e.Error = "redis: nil" then some "$-1\r\n"
    else some ("-" ++ e.Error ++ "\r\n")
  | none => some (FormatFloat cmd.val)

/-- The StringSlice variant. -/
structure StringSliceCmd where
  base : baseCmd
  val : List String

/-- NewStringSliceCmd from the source: key position 1. -/
def NewStringSliceCmd (args : List String) : StringSliceCmd :=
  ⟨mkBase args none 1, []⟩

/-- StringSliceCmd.reset from the source. -/
def StringSliceCmd.reset (cmd : StringSliceCmd) : StringSliceCmd :=
  { cmd with val := [], base.err := none }

/-- FormatStringSlice from the source: array header, then one bulk frame per
element with byte-count lengths. -/
def FormatStringSlice (val : List String) : String :=
  val.foldl
    (fun b v => b ++ "$" ++ util.Itoa v.utf8ByteSize ++ "\r\n" ++ v ++ "\r\n")
    ("*" ++ util.Itoa val.length ++ "\r\n")

/-- StringSliceCmd.Reply from the source. -/
def StringSliceCmd.Reply (cmd : StringSliceCmd) : Option String :=
  match cmd.base.Err with
  | some e =>
    if e.Error = "redis: nil" then some "$-1\r\n"
    else some ("-" ++ e.Error ++ "\r\n")
  | none => some (FormatStringSlice cmd.val)

/-- The BoolSlice variant. -/
structure BoolSliceCmd where
  base : baseCmd
  val : List Bool

/-- NewBoolSliceCmd from the source: key position 1. -/
def NewBoolSliceCmd (args : List String) : BoolSliceCmd :=
  ⟨mkBase args none 1, []⟩

/-- BoolSliceCmd.reset from the source. -/
def BoolSliceCmd.reset (cmd : BoolSliceCmd) : BoolSliceCmd :=
  { cmd with val := [], base.err := none }

/-- BoolSliceCmd.Reply from the source: returns nil unconditionally. -/
def BoolSliceCmd.Reply (_ : BoolSliceCmd) : Option String := none

/-- The StringStringMap variant; the Go map is carried as an association
list, which the claims never order-inspect. -/
structure StringStringMapCmd where
  base : baseCmd
  val : List (String × String)

/-- NewStringStringMapCmd from the source: key position 1. -/
def NewStringStringMapCmd (args : List String) : StringStringMapCmd :=
  ⟨mkBase args none 1, []⟩

/-- StringStringMapCmd.reset from the source. -/
def StringStringMapCmd.reset (cmd : StringStringMapCmd) : StringStringMapCmd :=
  { cmd with val := [], base.err := none }

/-- StringStringMapCmd.Reply from the source: returns nil unconditionally. -/
def StringStringMapCmd.Reply (_ : StringStringMapCmd) : Option String := none

/-- The StringIntMap variant. -/
structure StringIntMapCmd where
  base : baseCmd
  val : List (String × Int)

/-- NewStringIntMapCmd from the source: key position 1. -/
def NewStringIntMapCmd (args : List String) : StringIntMapCmd :=
  ⟨mkBase args none 1, []⟩

/-- StringIntMapCmd.reset from the source. -/
def StringIntMapCmd.reset (cmd : StringIntMapCmd) : StringIntMapCmd :=
  { cmd with val := [], base.err := none }

/-- StringIntMapCmd.Reply from the source: returns nil unconditionally. -/
def StringIntMapCmd.Reply (_ : StringIntMapCmd) : Option String := none

/-- Modelled from the spec: Z, a sorted-set member and score pair, is
declared outside src/. -/
structure Z where
  Member : String
  Score : GoFloat

/-- The ZSlice variant. -/
structure ZSliceCmd where
  base : baseCmd
  val : List Z

/-- NewZSliceCmd from the source: key position 1. -/
def NewZSliceCmd (args : List String) : ZSliceCmd :=
  ⟨mkBase args none 1, []⟩

/-- ZSliceCmd.reset from the source. -/
def ZSliceCmd.reset (cmd : ZSliceCmd) : ZSliceCmd :=
  { cmd with val := [], base.err := none }

/-- ZSliceCmd.Reply from the source: returns nil unconditionally. -/
def ZSliceCmd.Reply (_ : ZSliceCmd) : Option String := none

/-- The Scan variant: cursor plus keys. -/
structure ScanCmd where
  base : baseCmd
  cursor : Int
  keys : List String

/-- NewScanCmd from the source: key position 1. -/
def NewScanCmd (args : List String) : ScanCmd :=
  ⟨mkBase args none 1, 0, []⟩

/-- ScanCmd.reset from the source: clears cursor, keys and error. -/
def ScanCmd.reset (cmd : ScanCmd) : ScanCmd :=
  { cmd with cursor := 0, keys := [], base.err := none }

/-- ScanCmd.Reply from the source: returns nil unconditionally. -/
def ScanCmd.Reply (_ : ScanCmd) : Option String := none

/-- ClusterSlotInfo from the source: inclusive slot range plus addresses. -/
structure ClusterSlotInfo where
  Start : Int
  End : Int
  Addrs : List String

/-- The ClusterSlot variant. -/
structure ClusterSlotCmd where
  base : baseCmd
  val : List ClusterSlotInfo

/-- NewClusterSlotCmd from the source: key position 1. -/
def NewClusterSlotCmd (args : List String) : ClusterSlotCmd :=
  ⟨mkBase args none 1, []⟩

/-- ClusterSlotCmd.reset from the source. -/
def ClusterSlotCmd.reset (cmd : ClusterSlotCmd) : ClusterSlotCmd :=
  { cmd with val := [], base.err := none }

/-- ClusterSlotCmd.Reply from the source: returns nil unconditionally. -/
def ClusterSlotCmd.Reply (_ : ClusterSlotCmd) : Option String := none

/-- A value of the Cmder interface: one of the fifteen command variants. -/
inductive Cmder where
  | generic (c : Cmd)
  | slice (c : SliceCmd)
  | status (c : StatusCmd)
  | int (c : IntCmd)
  | duration (c : DurationCmd)
  | bool (c : BoolCmd)
  | str (c : StringCmd)
  | float (c : FloatCmd)
  | stringSlice (c : StringSliceCmd)
  | boolSlice (c : BoolSliceCmd)
  | stringStringMap (c : StringStringMapCmd)
  | stringIntMap (c : StringIntMapCmd)
  | zSlice (c : ZSliceCmd)
  | scan (c : ScanCmd)
  | clusterSlot (c : ClusterSlotCmd)

/-- Dynamic dispatch of setErr: every variant uses the promoted
baseCmd.setErr. -/
def Cmder.setErr (e : Option GoError) : Cmder → Cmder
  | .generic c => .generic { c with base := c.base.setErr e }
  | .slice c => .slice { c with base := c.base.setErr e }
  | .status c => .status { c with base := c.base.setErr e }
  | .int c => .int { c with base := c.base.setErr e }
  | .duration c => .duration { c with base := c.base.setErr e }
  | .bool c => .bool { c with base := c.base.setErr e }
  | .str c => .str { c with base := c.base.setErr e }
  | .float c => .float { c with base := c.base.setErr e }
  | .stringSlice c => .stringSlice { c with base := c.base.setErr e }
  | .boolSlice c => .boolSlice { c with base := c.base.setErr e }
  | .stringStringMap c => .stringStringMap { c with base := c.base.setErr e }
  | .stringIntMap c => .stringIntMap { c with base := c.base.setErr e }
  | .zSlice c => .zSlice { c with base := c.base.setErr e }
  | .scan c => .scan { c with base := c.base.setErr e }
  | .clusterSlot c => .clusterSlot { c with base := c.base.setErr e }

/-- Dynamic dispatch of Err(): every variant uses the promoted baseCmd.Err. -/
def Cmder.Err : Cmder → Option GoError
  | .generic c => c.base.Err
  | .slice c => c.base.Err
  | .status c => c.base.Err
  | .int c => c.base.Err
  | .duration c => c.base.Err
  | .bool c => c.base.Err
  | .str c => c.base.Err
  | .float c => c.base.Err
  | .stringSlice c => c.base.Err
  | .boolSlice c => c.base.Err
  | .stringStringMap c => c.base.Err
  | .stringIntMap c => c.base.Err
  | .zSlice c => c.base.Err
  | .scan c => c.base.Err
  | .clusterSlot c => c.base.Err

/-- Erase the stored error of a command, leaving every other component (the
argument vector, the decoded value, timeouts, key position) untouched; used
to state frame conditions. -/
def Cmder.withoutErr : Cmder → Cmder
  | .generic c => .generic { c with base.err := none }
  | .slice c => .slice { c with base.err := none }
  | .status c => .status { c with base.err := none }
  | .int c => .int { c with base.err := none }
  | .duration c => .duration { c with base.err := none }
  | .bool c => .bool { c with base.err := none }
  | .str c => .str { c with base.err := none }
  | .float c => .float { c with base.err := none }
  | .stringSlice c => .stringSlice { c with base.err := none }
  | .boolSlice c => .boolSlice { c with base.err := none }
  | .stringStringMap c => .stringStringMap { c with base.err := none }
  | .stringIntMap c => .stringIntMap { c with base.err := none }
  | .zSlice c => .zSlice { c with base.err := none }
  | .scan c => .scan { c with base.err := none }
  | .clusterSlot c => .clusterSlot { c with base.err := none }

/-- setCmdsErr from the source: apply setErr to every command of the batch. -/
def setCmdsErr (cmds : List Cmder) (e : Option GoError) : List Cmder :=
  cmds.map (Cmder.setErr e)

/-- Err() after setErr(e) is e, on every variant. -/
theorem Cmder.Err_setErr (e : Option GoError) (c : Cmder) :
    (Cmder.setErr e c).Err = e := by
  cases c <;> cases e <;> rfl

/-- setErr only touches the stored error. -/
theorem Cmder.withoutErr_setErr (e : Option GoError) (c : Cmder) :
    (Cmder.setErr e c).withoutErr = c.withoutErr := by
  cases c <;> rfl

/-- C1: counterexample. IntCmd.parseReply applied to a decoded status string
panics (the unchecked Go type assertion to int64 fails) instead of storing a
typed unexpected-shape error. -/
theorem intCmd_parseReply_panics_on_string :
    IntCmd.parseReply (Except.ok (RVal.vstr "OK")) (NewIntCmd ["incr", "counter"]) =
      ParseResult.panicked := rfl

/-- C1 (amended): on a decoded shape it cannot narrow, IntCmd.parseReply
panics, for a status string and for an array alike, because the narrowing is
an unchecked type assertion; BoolCmd.parseReply narrows through a checked
type switch and on an array shape returns a typed error without panicking,
but does not store it: the returned command state is unchanged, so its value
is untouched and Err() still reports no error. -/
theorem parseReply_unnarrowable_shape (c : IntCmd) (b : BoolCmd) (s : String)
    (l : List RVal) :
    IntCmd.parseReply (Except.ok (RVal.vstr s)) c = ParseResult.panicked ∧
    IntCmd.parseReply (Except.ok (RVal.varr l)) c = ParseResult.panicked ∧
    BoolCmd.parseReply (Except.ok (RVal.varr l)) b = ParseResult.ret b (some boolShapeErr) :=
  ⟨rfl, rfl, rfl⟩

/-- C3: the Generic, BoolSlice, StringStringMap, StringIntMap, ZSlice, Scan
and ClusterSlot variants return no reply bytes at all in every state,
whatever value was decoded and whatever error is stored. -/
theorem reply_nil_variants (c1 : Cmd) (c2 : BoolSliceCmd) (c3 : StringStringMapCmd)
    (c4 : StringIntMapCmd) (c5 : ZSliceCmd) (c6 : ScanCmd) (c7 : ClusterSlotCmd) :
    c1.Reply = none ∧ c2.Reply = none ∧ c3.Reply = none ∧ c4.Reply = none ∧
    c5.Reply = none ∧ c6.Reply = none ∧ c7.Reply = none :=
  ⟨rfl, rfl, rfl, rfl, rfl, rfl, rfl⟩

/-- C4: FormatInt 42, FormatStatus of the OK status and FormatString of a
two-byte payload produce the exact RESP frames, the bulk length being the
byte count of the payload. -/
theorem format_concrete_frames :
    FormatInt 42 = ":42\r\n" ∧ FormatStatus "OK" = "+OK\r\n" ∧
    FormatString "ab" = "$2\r\nab\r\n" := by
  refine ⟨?_, ?_, ?_⟩ <;> decide

/-- C2: counterexample. The generic Cmd variant holds a stored non-Nil error
with message boom, yet its Reply() returns no bytes at all (Go nil), not the
error frame the claim requires for every variant. -/
theorem cmd_reply_drops_stored_error :
    (Cmd.mk (mkBase ["get", "k"] (some ⟨3, "boom"⟩) 0) none).base.err =
      some ⟨3, "boom"⟩ ∧
    Cmd.Reply (Cmd.mk (mkBase ["get", "k"] (some ⟨3, "boom"⟩) 0) none) = none :=
  ⟨rfl, rfl⟩

/-- C2 (amended): for the eight encoding variants (Slice, Status, Int,
Duration, Bool, String, Float, StringSlice), when an error is stored Reply()
returns the nil bulk frame exactly when the error message equals the redis
nil text (as the Nil sentinel message does; the source checks the message,
not the error identity), and the error frame with the message otherwise; the
remaining variants, the generic Cmd among them, return no bytes even when an
error is stored. -/
theorem reply_with_stored_error (e : GoError)
    (c1 : SliceCmd) (c2 : StatusCmd) (c3 : IntCmd) (c4 : DurationCmd)
    (c5 : BoolCmd) (c6 : StringCmd) (c7 : FloatCmd) (c8 : StringSliceCmd)
    (c9 : Cmd) :
    (c1.base.err = some e → c1.Reply = some (errorFrame e)) ∧
    (c2.base.err = some e → c2.Reply = some (errorFrame e)) ∧
    (c3.base.err = some e → c3.Reply = some (errorFrame e)) ∧
    (c4.base.err = some e → c4.Reply = some (errorFrame e)) ∧
    (c5.base.err = some e → c5.Reply = some (errorFrame e)) ∧
    (c6.base.err = some e → c6.Reply = some (errorFrame e)) ∧
    (c7.base.err = some e → c7.Reply = some (errorFrame e)) ∧
    (c8.base.err = some e → c8.Reply = some (errorFrame e)) ∧
    (c9.base.err = some e → c9.Reply = none) := by
  refine ⟨?_, ?_, ?_, ?_, ?_, ?_, ?_, ?_, ?_⟩ <;> intro h <;>
    simp [SliceCmd.Reply, StatusCmd.Reply, IntCmd.Reply, DurationCmd.Reply,
      BoolCmd.Reply, StringCmd.Reply, FloatCmd.Reply, StringSliceCmd.Reply,
      Cmd.Reply, baseCmd.Err, errorFrame, h] <;> split <;> rfl

/-- C2 witness: an Int command holding a plain error emits the error frame,
and one holding the Nil sentinel emits the nil bulk frame. -/
theorem reply_with_stored_error_witness :
    IntCmd.Reply (IntCmd.mk (mkBase ["incr", "k"] (some ⟨3, "boom"⟩) 1) 0) =
      some "-boom\r\n" ∧
    IntCmd.Reply (IntCmd.mk (mkBase ["get", "k"] (some Nil) 1) 0) =
      some "$-1\r\n" := by
  constructor
  · have h := (reply_with_stored_error ⟨3, "boom"⟩
      (NewSliceCmd ["mget", "k"]) (NewStatusCmd ["set", "k", "v"])
      (IntCmd.mk (mkBase ["incr", "k"] (some ⟨3, "boom"⟩) 1) 0)
      (NewDurationCmd 1000000 ["pttl", "k"]) (NewBoolCmd ["setnx", "k", "v"])
      (NewStringCmd ["get", "k"]) (NewFloatCmd ["incrbyfloat", "k", "1"])
      (NewStringSliceCmd ["keys", "*"]) (NewCmd ["ping"])).2.2.1 rfl
    exact h.trans (by decide)
  · have h := (reply_with_stored_error Nil
      (NewSliceCmd ["mget", "k"]) (NewStatusCmd ["set", "k", "v"])
      (IntCmd.mk (mkBase ["get", "k"] (some Nil) 1) 0)
      (NewDurationCmd 1000000 ["pttl", "k"]) (NewBoolCmd ["setnx", "k", "v"])
      (NewStringCmd ["get", "k"]) (NewFloatCmd ["incrbyfloat", "k", "1"])
      (NewStringSliceCmd ["keys", "*"]) (NewCmd ["ping"])).2.2.1 rfl
    exact h.trans (by decide)

/-- C5: BoolCmd.parseReply on the Nil sentinel stores false and leaves no
error stored, so Err() reports nil; a decoded integer 1 yields true and a
decoded OK status string yields true. -/
theorem boolCmd_parse_nil_false (cmd : BoolCmd) (h : cmd.base.err = none) :
    BoolCmd.parseReply (Except.error Nil) cmd =
      ParseResult.ret { cmd with val := false } none ∧
    BoolCmd.Err { cmd with val := false } = none ∧
    BoolCmd.parseReply (Except.ok (RVal.vint 1)) cmd =
      ParseResult.ret { cmd with val := true } none ∧
    BoolCmd.parseReply (Except.ok (RVal.vstr "OK")) cmd =
      ParseResult.ret { cmd with val := true } none := by
  refine ⟨?_, ?_, ?_, ?_⟩
  · simp [BoolCmd.parseReply]
  · simp [BoolCmd.Err, baseCmd.Err, h]
  · simp [BoolCmd.parseReply]
  · simp [BoolCmd.parseReply]

/-- C5 witness: a fresh conditional-write Bool command decoding Nil stores
false with no error. -/
theorem boolCmd_parse_nil_false_witness :
    BoolCmd.parseReply (Except.error Nil) (NewBoolCmd ["set", "k", "v", "nx"]) =
      ParseResult.ret { NewBoolCmd ["set", "k", "v", "nx"] with val := false } none ∧
    BoolCmd.Err { NewBoolCmd ["set", "k", "v", "nx"] with val := false } = none := by
  have h := boolCmd_parse_nil_false (NewBoolCmd ["set", "k", "v", "nx"]) rfl
  exact ⟨h.1, h.2.1⟩

/-- C6: on every command variant and in every state, reset() leaves the
zero/empty value and no stored error, while the argument vector is the same
as before the call. -/
theorem reset_clears_value_and_error (c1 : Cmd) (c2 : SliceCmd) (c3 : StatusCmd)
    (c4 : IntCmd) (c5 : DurationCmd) (c6 : BoolCmd) (c7 : StringCmd)
    (c8 : FloatCmd) (c9 : StringSliceCmd) (c10 : BoolSliceCmd)
    (c11 : StringStringMapCmd) (c12 : StringIntMapCmd) (c13 : ZSliceCmd)
    (c14 : ScanCmd) (c15 : ClusterSlotCmd) :
    (c1.reset.val = none ∧ c1.reset.base.err = none ∧ c1.reset.base.args = c1.base.args) ∧
    (c2.reset.val = [] ∧ c2.reset.base.err = none ∧ c2.reset.base.args = c2.base.args) ∧
    (c3.reset.val = "" ∧ c3.reset.base.err = none ∧ c3.reset.base.args = c3.base.args) ∧
    (c4.reset.val = 0 ∧ c4.reset.base.err = none ∧ c4.reset.base.args = c4.base.args) ∧
    (c5.reset.val = 0 ∧ c5.reset.base.err = none ∧ c5.reset.base.args = c5.base.args) ∧
    (c6.reset.val = false ∧ c6.reset.base.err = none ∧ c6.reset.base.args = c6.base.args) ∧
    (c7.reset.val = "" ∧ c7.reset.base.err = none ∧ c7.reset.base.args = c7.base.args) ∧
    (c8.reset.val = ⟨"0"⟩ ∧ c8.reset.base.err = none ∧ c8.reset.base.args = c8.base.args) ∧
    (c9.reset.val = [] ∧ c9.reset.base.err = none ∧ c9.reset.base.args = c9.base.args) ∧
    (c10.reset.val = [] ∧ c10.reset.base.err = none ∧ c10.reset.base.args = c10.base.args) ∧
    (c11.reset.val = [] ∧ c11.reset.base.err = none ∧ c11.reset.base.args = c11.base.args) ∧
    (c12.reset.val = [] ∧ c12.reset.base.err = none ∧ c12.reset.base.args = c12.base.args) ∧
    (c13.reset.val = [] ∧ c13.reset.base.err = none ∧ c13.reset.base.args = c13.base.args) ∧
    (c14.reset.cursor = 0 ∧ c14.reset.keys = [] ∧ c14.reset.base.err = none ∧
      c14.reset.base.args = c14.base.args) ∧
    (c15.reset.val = [] ∧ c15.reset.base.err = none ∧ c15.reset.base.args = c15.base.args) :=
  ⟨⟨rfl, rfl, rfl⟩, ⟨rfl, rfl, rfl⟩, ⟨rfl, rfl, rfl⟩, ⟨rfl, rfl, rfl⟩,
   ⟨rfl, rfl, rfl⟩, ⟨rfl, rfl, rfl⟩, ⟨rfl, rfl, rfl⟩, ⟨rfl, rfl, rfl⟩,
   ⟨rfl, rfl, rfl⟩, ⟨rfl, rfl, rfl⟩, ⟨rfl, rfl, rfl⟩, ⟨rfl, rfl, rfl⟩,
   ⟨rfl, rfl, rfl⟩, ⟨rfl, rfl, rfl, rfl⟩, ⟨rfl, rfl, rfl⟩⟩

/-- C7: setCmdsErr applies setErr(e) to each command of the batch; every
resulting command reports Err() = e, and erasing the stored error recovers
the original batch, so the decoded values (and all other components) are
untouched. -/
theorem setCmdsErr_batch (cmds : List Cmder) (e : Option GoError) :
    (∀ c ∈ setCmdsErr cmds e, c.Err = e) ∧
    (setCmdsErr cmds e).map Cmder.withoutErr = cmds.map Cmder.withoutErr := by
  constructor
  · intro c hc
    rcases List.mem_map.mp hc with ⟨a, _, rfl⟩
    exact Cmder.Err_setErr e a
  · unfold setCmdsErr
    rw [List.map_map]
    exact List.map_congr_left fun a _ => Cmder.withoutErr_setErr e a

/-- C7 witness: a two-command batch failed with a concrete connection error
reports that error on each member, values untouched. -/
theorem setCmdsErr_batch_witness :
    Cmder.Err (Cmder.setErr (some ⟨9, "broken pipe"⟩)
      (Cmder.int (NewIntCmd ["incr", "k"]))) = some ⟨9, "broken pipe"⟩ ∧
    (setCmdsErr [Cmder.int (NewIntCmd ["incr", "k"]),
        Cmder.status (NewStatusCmd ["set", "k", "v"])]
        (some ⟨9, "broken pipe"⟩)).map Cmder.withoutErr =
      [Cmder.int (NewIntCmd ["incr", "k"]),
        Cmder.status (NewStatusCmd ["set", "k", "v"])].map Cmder.withoutErr := by
  have h := setCmdsErr_batch
    [Cmder.int (NewIntCmd ["incr", "k"]), Cmder.status (NewStatusCmd ["set", "k", "v"])]
    (some ⟨9, "broken pipe"⟩)
  refine ⟨h.1 _ ?_, h.2⟩
  simp [setCmdsErr]

/-- C8: clusterKey() returns the argument sitting at the configured key
position whenever a position is configured (positive) and names an argument
of the vector, and returns the empty string when the key position is 0 (no
routable key). -/
theorem clusterKey_configured (cmd : baseCmd) :
    (0 < cmd._clusterKeyPos → cmd._clusterKeyPos < (cmd._args.length : Int) →
      cmd._args[cmd._clusterKeyPos.toNat]? = some cmd.clusterKey) ∧
    (cmd._clusterKeyPos = 0 → cmd.clusterKey = "") := by
  constructor
  · intro h1 h2
    have h3 : cmd._clusterKeyPos.toNat < cmd._args.length := by omega
    unfold baseCmd.clusterKey
    rw [dif_pos ⟨h1, h2⟩, List.getElem?_eq_getElem h3]
    rfl
  · intro h0
    unfold baseCmd.clusterKey
    rw [dif_neg]
    omega

/-- C8 witness: a keyed command yields its key argument, a keyless command
yields the empty string. -/
theorem clusterKey_configured_witness :
    (mkBase ["get", "mykey"] none 1)._args[(1 : Int).toNat]? =
      some (baseCmd.clusterKey (mkBase ["get", "mykey"] none 1)) ∧
    baseCmd.clusterKey (mkBase ["get", "mykey"] none 1) = "mykey" ∧
    baseCmd.clusterKey (mkBase ["ping"] none 0) = "" :=
  ⟨(clusterKey_configured (mkBase ["get", "mykey"] none 1)).1 (by decide) (by decide),
   by decide,
   (clusterKey_configured (mkBase ["ping"] none 0)).2 rfl⟩

/-- C9: clusterKey() is total and returns the empty string whenever the
configured key position does not index the argument vector: positions at
most 0 and positions at or past the end of the vector alike. -/
theorem clusterKey_out_of_range (cmd : baseCmd)
    (h : cmd._clusterKeyPos ≤ 0 ∨ (cmd._args.length : Int) ≤ cmd._clusterKeyPos) :
    cmd.clusterKey = "" := by
  unfold baseCmd.clusterKey
  rw [dif_neg]
  omega

/-- C9 witness: a command built with key position 1 but only one argument,
and one with a negative position, both yield the empty string. -/
theorem clusterKey_out_of_range_witness :
    baseCmd.clusterKey (mkBase ["ping"] none 1) = "" ∧
    baseCmd.clusterKey (mkBase ["get", "k"] none (-2)) = "" :=
  ⟨clusterKey_out_of_range (mkBase ["ping"] none 1) (Or.inr (by decide)),
   clusterKey_out_of_range (mkBase ["get", "k"] none (-2)) (Or.inl (by decide))⟩

/-- Any list containing an element of unsupported dynamic type makes the
FormatSlice loop return the TypeAssertedErr error frame, whatever the buffer
accumulated so far. -/
theorem formatSliceLoop_unsupported (t : String) (l : List SVal) :
    ∀ b : String, SVal.vother t ∈ l →
      formatSliceLoop l b = "-" ++ TypeAssertedErr.Error ++ "\r\n" := by
  induction l with
  | nil => intro b h; cases h
  | cons v rest ih =>
    intro b h
    cases v with
    | vother s => rfl
    | vint i =>
      rcases List.mem_cons.mp h with h1 | h2
      · simp at h1
      · exact ih _ h2
    | vint64 i =>
      rcases List.mem_cons.mp h with h1 | h2
      · simp at h1
      · exact ih _ h2
    | vstr s =>
      rcases List.mem_cons.mp h with h1 | h2
      · simp at h1
      · exact ih _ h2
    | vfloat f =>
      rcases List.mem_cons.mp h with h1 | h2
      · simp at h1
      · exact ih _ h2
    | vnil =>
      rcases List.mem_cons.mp h with h1 | h2
      · simp at h1
      · exact ih _ h2

/-- C10: FormatSlice on the heterogeneous sequence of the string a, the int
1, the float 1.5 and nil emits the array header of count 4 followed by the
four element frames in order (bulk a, bulk 1, bulk 1.5, nil bulk frame); and
any sequence containing an element of unsupported dynamic type makes
FormatSlice return the error frame carrying the TypeAssertedErr message
instead of an array. -/
theorem formatSlice_hetero_and_unsupported (l : List SVal) (t : String)
    (h : SVal.vother t ∈ l) :
    FormatSlice [SVal.vstr "a", SVal.vint 1, SVal.vfloat ⟨"1.5"⟩, SVal.vnil] =
      "*4\r\n" ++ "$1\r\na\r\n" ++ "$1\r\n1\r\n" ++ "$3\r\n1.5\r\n" ++ "$-1\r\n" ∧
    FormatSlice l = "-" ++ TypeAssertedErr.Error ++ "\r\n" := by
  constructor
  · decide
  · exact formatSliceLoop_unsupported t l _ h

/-- C10 witness: a slice holding a value of unsupported dynamic type (a Go
bool, say) formats to the TypeAssertedErr error frame. -/
theorem formatSlice_hetero_and_unsupported_witness :
    FormatSlice [SVal.vstr "a", SVal.vother "bool"] =
      "-" ++ TypeAssertedErr.Error ++ "\r\n" :=
  (formatSlice_hetero_and_unsupported [SVal.vstr "a", SVal.vother "bool"] "bool"
    (by decide)).2

end Redis
